import Mathlib

/-!
Shallow embedding of the parallel chunked alignment pipeline of
`src/AlignWorkflow.cpp` (pbmm2), together with theorems settling the
frozen claims about it.

Modelling conventions:
* `BAM::BamRecord` input records are opaque to the pipeline; we model the
  input stream as a `List α` for an arbitrary type `α` with a designated
  default element `d` standing for a default-constructed `BamRecord`
  (the fresh `std::vector<BAM::BamRecord>(chunkSize)` buffer is filled
  with default-constructed records).
* `int32_t` / `int64_t` arithmetic is modelled with `Int` (all quantities
  involved are tiny, far from overflow).
* `double` arithmetic (similarity, concordance) is modelled with `ℚ`;
  the one place where IEEE semantics matters (division by a zero
  alignment count, yielding NaN or ±Inf) is modelled explicitly by the
  `ConcordanceValue.nonfinite` constructor.
* `std::exit(EXIT_FAILURE)` in `CheckPositionalArgs` is modelled as
  `Except.error` carrying the fatal log message.
-/

namespace Pbmm2

/-! ## The Batcher loop (AlignWorkflow.cpp lines 300-319)

```
int32_t i = 0;
static constexpr const int32_t chunkSize = 100;
auto records = std::make_unique<std::vector<BAM::BamRecord>>(chunkSize);
while (qryRdr->GetNext((*records)[i++])) {
    if (i >= chunkSize) {
        queue.ProduceWith(Align, std::move(records));
        records = std::make_unique<std::vector<BAM::BamRecord>>(chunkSize);
        i = 0;
    }
}
// terminal records, if they exist
if (i > 0) {
    records->resize(i);
    queue.ProduceWith(Align, std::move(records));
}
```

`GetNext((*records)[i++])` increments `i` even when `GetNext` returns
`false`: at end of input, slot `i` (a default-constructed record, never
written by any successful read) is counted, `i` becomes `cur.length + 1`,
the loop exits, and since `i > 0` always holds the trailing batch
`cur ++ [default]` is always submitted.  `batcherLoop d C input cur`
models the loop with `cur` the records read into the current buffer so
far (`i = cur.length` at the loop head). -/

def batcherLoop {α : Type} (d : α) (C : Nat) : List α → List α → List (List α)
  | [], cur =>
      -- GetNext fails on slot cur.length, i becomes cur.length + 1 > 0,
      -- resize(i) keeps the default-constructed slot, batch is submitted
      [cur ++ [d]]
  | r :: rs, cur =>
      let cur' := cur ++ [r]
      if C ≤ cur'.length then cur' :: batcherLoop d C rs [] else batcherLoop d C rs cur'

/-- The sequence of batches `ProduceWith`-submitted by the Runner for a
given input stream, with `d` the default-constructed record and `C` the
chunk size. -/
def runBatcher {α : Type} (d : α) (C : Nat) (input : List α) : List (List α) :=
  batcherLoop d C input []

/-- `chunkSize` constant of AlignWorkflow.cpp line 301. -/
def chunkSize : Nat := 100

/-! ## Alignment records, the filter predicate (lines 263-269) -/

/-- The fields of a `BAM::BamRecord` that the filter and the Sink read. -/
structure AlnRec where
  referenceStart : Int
  referenceEnd : Int
  numDeletedBases : Int
  numInsertedBases : Int
  numMismatches : Int
deriving DecidableEq, Repr

/-- `span = aln.ReferenceEnd() - aln.ReferenceStart()` (lines 47, 264). -/
def span (a : AlnRec) : Int := a.referenceEnd - a.referenceStart

/-- `nErr = NumDeletedBases + NumInsertedBases + NumMismatches` (lines 48, 265). -/
def nErr (a : AlnRec) : Int :=
  a.numDeletedBases + a.numInsertedBases + a.numMismatches

/-- The two tuning parameters read by the filter lambda. -/
structure AlignSettings where
  MinAlignmentLength : Int
  MinAccuracy : ℚ

/-- The filter lambda of AlignWorkflow.cpp lines 263-269:

```
const int32_t span = aln.ReferenceEnd() - aln.ReferenceStart();
const int32_t nErr = ...;
if (span <= 0 || span < settings.MinAlignmentLength) return false;
if (1.0 - 1.0 * nErr / span < settings.MinAccuracy) return false;
return true;
``` -/
def filterPred (settings : AlignSettings) (aln : AlnRec) : Bool :=
  if span aln ≤ 0 ∨ span aln < settings.MinAlignmentLength then false
  else if (1 : ℚ) - (nErr aln : ℚ) / (span aln : ℚ) < settings.MinAccuracy then false
  else true

/-! ## The Sink: Summary, WriteRecords (lines 36-57), WriterThread (lines 59-69) -/

/-- The `Summary` accumulator (lines 36-41). -/
structure Summary where
  NumAlns : Int
  Bases : Int
  Similarity : ℚ
deriving DecidableEq, Repr

/-- `RecordsType`: an absent (null) or present list of alignment records. -/
abbrev RecordsType := Option (List AlnRec)

/-- Observable state of the writer thread: records written to `out` in
order, the `Summary`, and the cumulative `alignedRecords` counter. -/
structure SinkState where
  output : List AlnRec
  summary : Summary
  alignedRecords : Int
deriving DecidableEq, Repr

/-- One iteration of the `for` loop in `WriteRecords` (lines 46-56):
fold one alignment into the summary, write it, bump the counter. -/
def writeAln (st : SinkState) (aln : AlnRec) : SinkState :=
  { output := st.output ++ [aln]
    summary :=
      { NumAlns := st.summary.NumAlns + 1
        Bases := st.summary.Bases + span aln
        Similarity := st.summary.Similarity + (1 - (nErr aln : ℚ) / (span aln : ℚ)) }
    alignedRecords := st.alignedRecords + 1 }

/-- `WriteRecords` (lines 43-57): `if (!results) return;` then the loop. -/
def WriteRecords (st : SinkState) (results : RecordsType) : SinkState :=
  match results with
  | none => st
  | some alns => alns.foldl writeAln st

/-- `Summary s; int64_t alignedRecords = 0;` (lines 61-62). -/
def initialSinkState : SinkState :=
  { output := [], summary := { NumAlns := 0, Bases := 0, Similarity := 0 }, alignedRecords := 0 }

/-- `std::round`: round half away from zero (Mathlib `round` is round
half up, which agrees on nonnegative arguments). -/
def roundHalfAwayFromZero (q : ℚ) : Int :=
  if q < 0 then -round (-q) else round q

/-- Value of the expression `std::round(1000.0 * s.Similarity / s.NumAlns) / 10.0`
as printed by `WriterThread` (line 68).  In IEEE double arithmetic a zero
`NumAlns` divisor makes the quotient NaN (if the numerator is 0) or ±Inf,
and `std::round` propagates it; `nonfinite` models that outcome. -/
inductive ConcordanceValue
  | nonfinite
  | finite (q : ℚ)
deriving DecidableEq, Repr

/-- The mean-concordance value computed (unconditionally) by
`WriterThread` at line 68.  There is no guard on `s.NumAlns`. -/
def meanConcordance (s : Summary) : ConcordanceValue :=
  if s.NumAlns = 0 then ConcordanceValue.nonfinite
  else ConcordanceValue.finite
    ((roundHalfAwayFromZero (1000 * s.Similarity / (s.NumAlns : ℚ)) : ℚ) / 10)

/-- The three final log lines of `WriterThread` (lines 65-68). -/
structure FinalReport where
  numAlns : Int
  bases : Int
  concordance : ConcordanceValue
deriving DecidableEq, Repr

/-- `WriterThread` (lines 59-69): drain every result the queue delivers
through `WriteRecords`, then report the final aggregates. -/
def WriterThread (resultsSeq : List RecordsType) : SinkState × FinalReport :=
  let st := resultsSeq.foldl WriteRecords initialSinkState
  (st, { numAlns := st.summary.NumAlns, bases := st.summary.Bases,
         concordance := meanConcordance st.summary })

/-! ## The Runner's pipeline scope and shutdown protocol (lines 296-331)

The pipeline scope of `AlignWorkflow::Runner` is straight-line sequential
code: the batcher loop submits batches with `queue.ProduceWith`; when the
input is exhausted the Runner calls `queue.Finalize()` once, then
`writer.join()`, and only after leaving the scope runs the optional
post-processing (`BAM::PbiFile::CreateFrom` when `settings.Pbi`,
`CreateDataSet` when the output is XML).  We model the observable
sequence of these calls as an event trace. -/

inductive RunnerEvent (α : Type) where
  | produceWith (batch : List α)
  | finalize
  | joinWriter
  | buildPbiIndex
  | createDataSet
deriving DecidableEq, Repr

/-- The trace of queue/thread/post-processing calls made by
`AlignWorkflow::Runner` (lines 296-331) for a given input stream. -/
def runnerTrace {α : Type} (d : α) (input : List α) (pbi outputIsXML : Bool) :
    List (RunnerEvent α) :=
  ((runBatcher d chunkSize input).map RunnerEvent.produceWith)
    ++ [RunnerEvent.finalize, RunnerEvent.joinWriter]
    ++ (if pbi then [RunnerEvent.buildPbiIndex] else [])
    ++ (if outputIsXML then [RunnerEvent.createDataSet] else [])

/-! ## CheckPositionalArgs (lines 71-138)

The file-system and dataset-parsing collaborators
(`Utility::FileExists`, `BAM::DataSet::Type`, `BAM::DataSet::FastaFiles`)
are modelled as an environment of oracles; `std::exit(EXIT_FAILURE)` is
modelled as `Except.error` with the fatal log message. -/

/-- `BAM::DataSet::TypeEnum` values distinguished by the switches. -/
inductive DataSetType where
  | SUBREAD
  | CONSENSUS_READ
  | ALIGNMENT
  | CONSENSUS_ALIGNMENT
  | BARCODE
  | REFERENCE
deriving DecidableEq, Repr

/-- Oracles for the external collaborators consulted by
`CheckPositionalArgs`: file existence, dataset type of a path, and the
FASTA files a reference dataset resolves to. -/
structure FsEnv where
  fileExists : String → Bool
  dsType : String → DataSetType
  fastaFiles : String → List String

/-- `boost::algorithm::ends_with(referenceFiles, ".mmi")`, expressed on
the character list of the path. -/
def endsWithMmi (s : String) : Bool := ".mmi".data.isSuffixOf s.data

/-- `CheckPositionalArgs` (lines 71-138). -/
def CheckPositionalArgs (env : FsEnv) (args : List String) :
    Except String (String × String × String) :=
  match args with
  | inputFile :: referenceFiles :: rest =>
    if env.fileExists inputFile = false then
      Except.error "Input data file does not exist"
    else
      match env.dsType inputFile with
      | DataSetType.SUBREAD | DataSetType.CONSENSUS_READ =>
        if env.fileExists referenceFiles = false then
          Except.error "Input reference file does not exist"
        else if endsWithMmi referenceFiles then
          Except.ok (inputFile, referenceFiles,
            match rest with
            | [o] => o
            | _ => "-")
        else
          match env.dsType referenceFiles with
          | DataSetType.REFERENCE =>
            match env.fastaFiles referenceFiles with
            | [f] => Except.ok (inputFile, f,
                match rest with
                | [o] => o
                | _ => "-")
            | _ => Except.error "Only one reference sequence allowed"
          | _ => Except.error "Unsupported reference input file"
      | _ => Except.error "Unsupported input data file"
  | _ => Except.error "Please provide at least the input arguments"

/-! ## Helper lemmas -/

/-- The filter lambda accepts a record exactly when the span is positive,
meets the minimum length, and the accuracy meets the minimum. -/
lemma filterPred_true_iff (settings : AlignSettings) (aln : AlnRec) :
    filterPred settings aln = true ↔
      0 < span aln ∧ settings.MinAlignmentLength ≤ span aln ∧
        settings.MinAccuracy ≤ 1 - (nErr aln : ℚ) / (span aln : ℚ) := by
  unfold filterPred
  split_ifs with h1 h2
  · simp only [Bool.false_eq_true, false_iff]
    rintro ⟨hpos, hlen, -⟩
    rcases h1 with h | h <;> omega
  · simp only [Bool.false_eq_true, false_iff]
    rintro ⟨-, -, hacc⟩
    linarith
  · push_neg at h1 h2
    simp only [true_iff]
    exact ⟨h1.1, h1.2, h2⟩

/-- The `WriteRecords` loop appends the processed records to the output
in their own order. -/
lemma foldl_writeAln_output (alns : List AlnRec) : ∀ st : SinkState,
    (alns.foldl writeAln st).output = st.output ++ alns := by
  induction alns with
  | nil => intro st; simp
  | cons a as ih =>
    intro st
    rw [List.foldl_cons, ih]
    simp [writeAln]

/-- The `WriteRecords` loop adds one to `NumAlns` per record. -/
lemma foldl_writeAln_numAlns (alns : List AlnRec) : ∀ st : SinkState,
    (alns.foldl writeAln st).summary.NumAlns
      = st.summary.NumAlns + (alns.length : Int) := by
  induction alns with
  | nil => intro st; simp
  | cons a as ih =>
    intro st
    rw [List.foldl_cons, ih]
    simp only [writeAln, List.length_cons]
    push_cast
    ring

/-- The `WriteRecords` loop adds each record's span to `Bases`. -/
lemma foldl_writeAln_bases (alns : List AlnRec) : ∀ st : SinkState,
    (alns.foldl writeAln st).summary.Bases
      = st.summary.Bases + (alns.map span).sum := by
  induction alns with
  | nil => intro st; simp
  | cons a as ih =>
    intro st
    rw [List.foldl_cons, ih]
    simp only [writeAln, List.map_cons, List.sum_cons]
    ring

/-- The `WriteRecords` loop adds each record's similarity to `Similarity`. -/
lemma foldl_writeAln_similarity (alns : List AlnRec) : ∀ st : SinkState,
    (alns.foldl writeAln st).summary.Similarity
      = st.summary.Similarity
          + (alns.map fun a => 1 - (nErr a : ℚ) / (span a : ℚ)).sum := by
  induction alns with
  | nil => intro st; simp
  | cons a as ih =>
    intro st
    rw [List.foldl_cons, ih]
    simp only [writeAln, List.map_cons, List.sum_cons]
    ring

/-- The `WriteRecords` loop adds one to `alignedRecords` per record. -/
lemma foldl_writeAln_alignedRecords (alns : List AlnRec) : ∀ st : SinkState,
    (alns.foldl writeAln st).alignedRecords
      = st.alignedRecords + (alns.length : Int) := by
  induction alns with
  | nil => intro st; simp
  | cons a as ih =>
    intro st
    rw [List.foldl_cons, ih]
    simp only [writeAln, List.length_cons]
    push_cast
    ring

/-- Invariant tying the accumulators of the Sink to the records actually
written to the output. -/
def SinkInv (st : SinkState) : Prop :=
  st.summary.NumAlns = (st.output.length : Int) ∧
  st.summary.Bases = (st.output.map span).sum ∧
  st.summary.Similarity
      = (st.output.map fun a => 1 - (nErr a : ℚ) / (span a : ℚ)).sum ∧
  st.alignedRecords = (st.output.length : Int)

lemma writeRecords_inv (st : SinkState) (r : RecordsType) (h : SinkInv st) :
    SinkInv (WriteRecords st r) := by
  cases r with
  | none => exact h
  | some alns =>
    obtain ⟨h1, h2, h3, h4⟩ := h
    refine ⟨?_, ?_, ?_, ?_⟩ <;>
      simp only [WriteRecords, foldl_writeAln_output, foldl_writeAln_numAlns,
        foldl_writeAln_bases, foldl_writeAln_similarity, foldl_writeAln_alignedRecords,
        h1, h2, h3, h4, List.map_append, List.sum_append, List.length_append] <;>
      push_cast <;> ring

lemma foldl_WriteRecords_inv (resultsSeq : List RecordsType) :
    ∀ st : SinkState, SinkInv st → SinkInv (resultsSeq.foldl WriteRecords st) := by
  induction resultsSeq with
  | nil => intro st h; exact h
  | cons r rs ih => intro st h; exact ih _ (writeRecords_inv st r h)

lemma sink_run_inv (resultsSeq : List RecordsType) :
    SinkInv (resultsSeq.foldl WriteRecords initialSinkState) :=
  foldl_WriteRecords_inv resultsSeq initialSinkState (by simp [SinkInv, initialSinkState])

/-! ## Claims -/

/-- Claim C1 (code-bug evidence): the Batcher loop does not produce
`ceil(R/C)` batches.  With `R = 0` it still submits one batch, holding a
single default-constructed record, and with `R = C = 100` (an exact
multiple of the capacity) it submits an extra trailing batch `[default]`
on top of the full batch, because `GetNext((*records)[i++])` increments
`i` even for the failed final read, so `i > 0` always holds at the
trailing check. -/
theorem batcher_off_by_one :
    runBatcher (0 : Nat) chunkSize [] = [[0]] ∧
    runBatcher (0 : Nat) chunkSize (List.replicate chunkSize 7)
      = [List.replicate chunkSize 7, [0]] := by
  constructor <;> decide

/-- Claim C2 (code-bug evidence): the multiset of records across all
submitted batches differs from the multiset of input records.  For the
one-record input `[5]`, the single submitted batch is `[5, 0]`: it
contains the default-constructed buffer slot `0`, which was never read
from the input. -/
theorem batcher_fabricates_record :
    (runBatcher (0 : Nat) chunkSize [5]).flatten = [5, 0] ∧
    ¬ (runBatcher (0 : Nat) chunkSize [5]).flatten.Perm [5] := by
  constructor
  · rfl
  · decide

/-- Claim C4: the filter predicate accepts a candidate record exactly
when both checks pass: the record is rejected when
`span = referenceEnd - referenceStart` is `≤ 0` or below
`MinAlignmentLength`, and rejected when
`1 - (deletions + insertions + mismatches) / span` is below
`MinAccuracy`; a rejected record yields `false` (mere exclusion), never
an error. -/
theorem filter_accepts_iff (settings : AlignSettings) (aln : AlnRec) :
    filterPred settings aln = true ↔
      0 < span aln ∧ settings.MinAlignmentLength ≤ span aln ∧
        settings.MinAccuracy ≤ 1 - (nErr aln : ℚ) / (span aln : ℚ) :=
  filterPred_true_iff settings aln

/-- Claim C6: on the synthetic result set of two alignments (span 100
with 0 errors and span 50 with 5 errors) the Sink ends with
count `2`, bases `150`, similarity sum `1.9`, and reports mean
concordance `round(1000 * 1.9 / 2) / 10 = 95` percent. -/
theorem sink_synthetic_two_alignments :
    (WriterThread [some [⟨0, 100, 0, 0, 0⟩, ⟨0, 50, 5, 0, 0⟩]]).1.summary
        = ⟨2, 150, 19/10⟩ ∧
    (WriterThread [some [⟨0, 100, 0, 0, 0⟩, ⟨0, 50, 5, 0, 0⟩]]).2
        = ⟨2, 150, ConcordanceValue.finite 95⟩ := by
  constructor <;>
    norm_num [WriterThread, WriteRecords, writeAln, initialSinkState, span, nErr,
      meanConcordance, roundHalfAwayFromZero, round_eq]

/-- Claim C7: for a present result, `WriteRecords` appends exactly the
result's records to the output, in the result's own order, and folds
each record's span, similarity and a count increment into the summary
(and the cumulative `alignedRecords` counter). -/
theorem writeRecords_order_and_fold (st : SinkState) (alns : List AlnRec) :
    (WriteRecords st (some alns)).output = st.output ++ alns ∧
    (WriteRecords st (some alns)).summary.NumAlns
        = st.summary.NumAlns + (alns.length : Int) ∧
    (WriteRecords st (some alns)).summary.Bases
        = st.summary.Bases + (alns.map span).sum ∧
    (WriteRecords st (some alns)).summary.Similarity
        = st.summary.Similarity
            + (alns.map fun a => 1 - (nErr a : ℚ) / (span a : ℚ)).sum ∧
    (WriteRecords st (some alns)).alignedRecords
        = st.alignedRecords + (alns.length : Int) :=
  ⟨foldl_writeAln_output alns st, foldl_writeAln_numAlns alns st,
    foldl_writeAln_bases alns st, foldl_writeAln_similarity alns st,
    foldl_writeAln_alignedRecords alns st⟩

/-- Claim C8: an absent (null) result makes `WriteRecords` return
immediately and an empty-but-present result writes nothing; in both
cases the output, the whole summary and the `alignedRecords` counter are
left unchanged. -/
theorem writeRecords_absent_or_empty_frame (st : SinkState) :
    WriteRecords st none = st ∧ WriteRecords st (some []) = st :=
  ⟨rfl, rfl⟩

/-- Claim C10: every record admitted by the filter has span at least 1,
so the denominator `span` used both by the filter's accuracy check and
by the Sink's per-record similarity term is nonzero: under the invariant
that all records of a result passed the filter, no division by zero (and
hence no NaN/Inf similarity contribution) occurs. -/
theorem admitted_records_have_nonzero_span (settings : AlignSettings)
    (alns : List AlnRec) (h : ∀ a ∈ alns, filterPred settings a = true) :
    ∀ a ∈ alns, 1 ≤ span a ∧ ((span a : ℚ) ≠ 0) := by
  intro a ha
  obtain ⟨hpos, -, -⟩ := (filterPred_true_iff settings a).mp (h a ha)
  refine ⟨by omega, ?_⟩
  exact_mod_cast (by omega : span a ≠ 0)

/-- Witness for C10 at a concrete admitted record. -/
theorem admitted_records_have_nonzero_span_witness :
    (∀ a ∈ [AlnRec.mk 0 100 0 0 0], filterPred ⟨50, 7/10⟩ a = true) ∧
    (∀ a ∈ [AlnRec.mk 0 100 0 0 0], 1 ≤ span a ∧ ((span a : ℚ) ≠ 0)) :=
  ⟨by norm_num [filterPred, span, nErr],
    admitted_records_have_nonzero_span ⟨50, 7/10⟩ _
      (by norm_num [filterPred, span, nErr])⟩

/-- Claim C3 counterexample: after the Sink consumes one
present-but-empty result, the alignment count is 0 and the reported mean
concordance is the computed nonfinite (NaN) value of the unguarded
division `round(1000 * 0.0 / 0) / 10` — not an explicit "no alignments"
state. -/
theorem writer_nonfinite_on_zero_alignments :
    (WriterThread [some []]).1.summary.NumAlns = 0 ∧
    (WriterThread [some []]).2.concordance = ConcordanceValue.nonfinite :=
  ⟨rfl, rfl⟩

/-- Claim C3 (amended): at pipeline completion the Sink reports the
total alignment count (the number of records written), the total bases
(the sum of their spans), and the mean concordance computed as
`round(1000 * sum(similarity) / count) / 10` when the count is nonzero;
the division by the count is not guarded, so when the count is zero the
emitted value is the nonfinite (NaN/Inf) result of the division, not an
explicit "no alignments" state. -/
theorem writer_final_report (resultsSeq : List RecordsType) :
    (WriterThread resultsSeq).2.numAlns
        = ((WriterThread resultsSeq).1.output.length : Int) ∧
    (WriterThread resultsSeq).2.bases
        = ((WriterThread resultsSeq).1.output.map span).sum ∧
    ((WriterThread resultsSeq).2.numAlns = 0 →
        (WriterThread resultsSeq).2.concordance = ConcordanceValue.nonfinite) ∧
    ((WriterThread resultsSeq).2.numAlns ≠ 0 →
        (WriterThread resultsSeq).2.concordance
          = ConcordanceValue.finite
              ((roundHalfAwayFromZero
                  (1000 * (WriterThread resultsSeq).1.summary.Similarity
                    / ((WriterThread resultsSeq).2.numAlns : ℚ)) : ℚ) / 10)) := by
  obtain ⟨h1, h2, h3, h4⟩ := sink_run_inv resultsSeq
  refine ⟨?_, ?_, ?_, ?_⟩
  · simpa [WriterThread] using h1
  · simpa [WriterThread] using h2
  · intro h
    simp only [WriterThread] at h ⊢
    simp [meanConcordance, h]
  · intro h
    simp only [WriterThread] at h ⊢
    simp [meanConcordance, h]

/-- Witness for the amended C3 on a run with one written alignment. -/
theorem writer_final_report_witness :
    (WriterThread [some [AlnRec.mk 0 100 0 0 0]]).2.numAlns ≠ 0 ∧
    (WriterThread [some [AlnRec.mk 0 100 0 0 0]]).2.concordance
      = ConcordanceValue.finite
          ((roundHalfAwayFromZero
              (1000 * (WriterThread [some [AlnRec.mk 0 100 0 0 0]]).1.summary.Similarity
                / ((WriterThread [some [AlnRec.mk 0 100 0 0 0]]).2.numAlns : ℚ)) : ℚ) / 10) :=
  ⟨by norm_num [WriterThread, WriteRecords, writeAln, initialSinkState],
    (writer_final_report [some [AlnRec.mk 0 100 0 0 0]]).2.2.2
      (by norm_num [WriterThread, WriteRecords, writeAln, initialSinkState])⟩

/-- Claim C5: within the Runner's pipeline scope the event trace
decomposes as the `ProduceWith` submissions (exactly the batches the
batcher loop builds), then a single `Finalize`, then the join of the
writer thread, and only then the post-processing steps (PBI index
building, dataset XML creation); `Finalize` and the join occur nowhere
else in the trace. -/
theorem runner_shutdown_protocol {α : Type} (d : α) (input : List α)
    (pbi outputIsXML : Bool) :
    ∃ postProcessing,
      runnerTrace d input pbi outputIsXML
          = ((runBatcher d chunkSize input).map RunnerEvent.produceWith)
              ++ [RunnerEvent.finalize, RunnerEvent.joinWriter] ++ postProcessing ∧
      (∀ e ∈ (runBatcher d chunkSize input).map RunnerEvent.produceWith,
          ∃ b, e = RunnerEvent.produceWith b) ∧
      (∀ e ∈ postProcessing,
          e = RunnerEvent.buildPbiIndex ∨ e = RunnerEvent.createDataSet) ∧
      (RunnerEvent.finalize : RunnerEvent α)
          ∉ (runBatcher d chunkSize input).map RunnerEvent.produceWith ∧
      (RunnerEvent.finalize : RunnerEvent α) ∉ postProcessing ∧
      (RunnerEvent.joinWriter : RunnerEvent α)
          ∉ (runBatcher d chunkSize input).map RunnerEvent.produceWith ∧
      (RunnerEvent.joinWriter : RunnerEvent α) ∉ postProcessing := by
  refine ⟨(if pbi then [RunnerEvent.buildPbiIndex] else [])
      ++ (if outputIsXML then [RunnerEvent.createDataSet] else []),
    ?_, ?_, ?_, ?_, ?_, ?_, ?_⟩
  · simp [runnerTrace, List.append_assoc]
  · intro e he
    obtain ⟨b, -, rfl⟩ := List.mem_map.mp he
    exact ⟨b, rfl⟩
  · intro e he
    rcases List.mem_append.mp he with h | h
    · cases pbi <;> simp_all
    · cases outputIsXML <;> simp_all
  · simp
  · cases pbi <;> cases outputIsXML <;> simp
  · simp
  · cases pbi <;> cases outputIsXML <;> simp

/-- Claim C9: with exactly two (valid) positional arguments the output
path is `"-"`; with fewer than two arguments, a missing input or
reference file, an input dataset that is neither SUBREAD nor
CONSENSUS_READ, or a non-`.mmi` reference that is not a REFERENCE
dataset or does not resolve to exactly one FASTA file, the check exits
with a failure (modelled as `Except.error`) before the pipeline
starts. -/
theorem checkPositionalArgs_spec (env : FsEnv) (input ref : String)
    (rest : List String) :
    ((env.fileExists input = true ∧
        (env.dsType input = DataSetType.SUBREAD ∨
          env.dsType input = DataSetType.CONSENSUS_READ) ∧
        env.fileExists ref = true ∧ endsWithMmi ref = true) →
      CheckPositionalArgs env [input, ref] = Except.ok (input, ref, "-")) ∧
    ((env.fileExists input = true ∧
        (env.dsType input = DataSetType.SUBREAD ∨
          env.dsType input = DataSetType.CONSENSUS_READ) ∧
        env.fileExists ref = true ∧ endsWithMmi ref = false ∧
        env.dsType ref = DataSetType.REFERENCE) →
      ∀ f, env.fastaFiles ref = [f] →
        CheckPositionalArgs env [input, ref] = Except.ok (input, f, "-")) ∧
    (∀ args : List String, args.length < 2 →
      ∃ msg, CheckPositionalArgs env args = Except.error msg) ∧
    (env.fileExists input = false →
      ∃ msg, CheckPositionalArgs env (input :: ref :: rest) = Except.error msg) ∧
    (env.fileExists input = true →
      (env.dsType input ≠ DataSetType.SUBREAD ∧
        env.dsType input ≠ DataSetType.CONSENSUS_READ) →
      ∃ msg, CheckPositionalArgs env (input :: ref :: rest) = Except.error msg) ∧
    (env.fileExists input = true →
      (env.dsType input = DataSetType.SUBREAD ∨
        env.dsType input = DataSetType.CONSENSUS_READ) →
      env.fileExists ref = false →
      ∃ msg, CheckPositionalArgs env (input :: ref :: rest) = Except.error msg) ∧
    (env.fileExists input = true →
      (env.dsType input = DataSetType.SUBREAD ∨
        env.dsType input = DataSetType.CONSENSUS_READ) →
      env.fileExists ref = true → endsWithMmi ref = false →
      env.dsType ref ≠ DataSetType.REFERENCE →
      ∃ msg, CheckPositionalArgs env (input :: ref :: rest) = Except.error msg) ∧
    (env.fileExists input = true →
      (env.dsType input = DataSetType.SUBREAD ∨
        env.dsType input = DataSetType.CONSENSUS_READ) →
      env.fileExists ref = true → endsWithMmi ref = false →
      env.dsType ref = DataSetType.REFERENCE →
      (env.fastaFiles ref).length ≠ 1 →
      ∃ msg, CheckPositionalArgs env (input :: ref :: rest) = Except.error msg) := by
  refine ⟨?_, ?_, ?_, ?_, ?_, ?_, ?_, ?_⟩
  · rintro ⟨hin, hty | hty, href, hmmi⟩ <;>
      simp [CheckPositionalArgs, hin, hty, href, hmmi]
  · rintro ⟨hin, hty | hty, href, hmmi, hrefty⟩ <;> intro f hf <;>
      simp [CheckPositionalArgs, hin, hty, href, hmmi, hrefty, hf]
  · intro args hlen
    rcases args with - | ⟨a, - | ⟨b, t⟩⟩
    · exact ⟨_, rfl⟩
    · exact ⟨_, rfl⟩
    · simp at hlen
      omega
  · intro h
    exact ⟨"Input data file does not exist", by simp [CheckPositionalArgs, h]⟩
  · rintro hin ⟨hty1, hty2⟩
    refine ⟨"Unsupported input data file", ?_⟩
    cases h : env.dsType input <;> simp_all [CheckPositionalArgs]
  · rintro hin (hty | hty) href <;>
      exact ⟨"Input reference file does not exist",
        by simp [CheckPositionalArgs, hin, hty, href]⟩
  · rintro hin (hty | hty) href hmmi hrefty <;>
      · refine ⟨"Unsupported reference input file", ?_⟩
        cases h : env.dsType ref <;>
          simp_all [CheckPositionalArgs, hin, hty, href, hmmi]
  · rintro hin (hty | hty) href hmmi hrefty hlen <;>
      · refine ⟨"Only one reference sequence allowed", ?_⟩
        rcases hf : env.fastaFiles ref with - | ⟨f, - | ⟨g, t⟩⟩ <;>
          simp_all [CheckPositionalArgs, hin, hty, href, hmmi, hrefty]

/-- Environment used to witness the positional-argument checks. -/
def witnessEnv : FsEnv where
  fileExists := fun _ => true
  dsType := fun s => if s = "movie.subreads.bam" then DataSetType.SUBREAD
    else DataSetType.REFERENCE
  fastaFiles := fun _ => ["ref.fasta"]

/-- Witness for C9: two valid positional arguments with an `.mmi`
reference yield standard output `"-"` as the output path. -/
theorem checkPositionalArgs_spec_witness :
    CheckPositionalArgs witnessEnv ["movie.subreads.bam", "ref.mmi"]
      = Except.ok ("movie.subreads.bam", "ref.mmi", "-") :=
  (checkPositionalArgs_spec witnessEnv "movie.subreads.bam" "ref.mmi" []).1
    ⟨rfl, Or.inl (by simp [witnessEnv]), rfl, by decide⟩

end Pbmm2
